import Mathlib

/-!
Verification of the Correlation & Risk-Fusion Pipeline of the
aita-threat-analyzer repository, as a shallow embedding in Lean.

Python `float` scores are modelled as exact rationals (`ℚ`), Python strings
as `String`, optional dict fields (`dict.get`) as `Option`, raised
exceptions as `Except`, and `datetime` values as POSIX seconds (`Int`).
External collaborators (the `re` regex engine, the spaCy language model,
the persisted ML model, the database reads) are passed in as explicit
parameters.
-/

namespace Aita

/-! ### Python string and truthiness primitives -/

/-- Python truthiness of an optional string field: an absent key (`none`) and the
empty string are falsy. -/
def truthyStr : Option String → Bool
  | none => false
  | some s => s != ""

/-- Python truthiness of a list value: the empty list is falsy. -/
def truthyList (l : List String) : Bool := !l.isEmpty

/-- Contiguous-substring test on character lists, for Python `needle in haystack`. -/
def substrAux (needle : List Char) : List Char → Bool
  | [] => needle.isEmpty
  | c :: rest => needle.isPrefixOf (c :: rest) || substrAux needle rest

/-- Python `needle in haystack` on strings. -/
def pyInStr (needle haystack : String) : Bool :=
  substrAux needle.data haystack.data

/-- Python `s.startswith(p)`. -/
def pyStartswith (s p : String) : Bool := p.data.isPrefixOf s.data

/-- Python `s.lower()` (ASCII case folding, which covers every string involved). -/
def pyLower (s : String) : String := ⟨s.data.map Char.toLower⟩

/-- Python `x in xs` for an optional string and a list of strings (`None in xs` is
false when `xs` holds only strings). -/
def pyInList (x : Option String) (xs : List String) : Bool :=
  match x with
  | none => false
  | some s => xs.contains s

/-! ### Correlation engine — src/backend/app/correlation/log_correlator.py -/

/-- A log event row as read by the correlator; fields accessed through `dict.get`
are `Option`s (`none` models an absent key). -/
structure LogEntry where
  id : Int := 0
  source_ip : Option String := none
  destination_ip : Option String := none
  domain : Option String := none
  url : Option String := none
  file_hash : Option String := none
  deriving DecidableEq

/-- A threat record as consumed by the correlator; an absent dict key is modelled as
the empty collection (for the indicator sets) or `none` (for `severity` and
`discovered_date`).  `file_hashes` maps algorithm names to digests;
`discovered_date` is POSIX seconds. -/
structure Threat where
  id : Int := 0
  title : String := ""
  ip_addresses : List String := []
  domains : List String := []
  urls : List String := []
  file_hashes : List (String × String) := []
  severity : Option String := none
  discovered_date : Option Int := none
  deriving DecidableEq

/-- `self.correlation_threshold`, set in `LogCorrelator.__init__`. -/
def correlation_threshold : ℚ := 0.7

/-- Guarded IP condition of `_calculate_correlation_score`:
`log_entry.get('source_ip') and threat.get('ip_addresses')` followed by
`log_entry['source_ip'] in threat['ip_addresses']`. -/
def ip_match (log_entry : LogEntry) (threat : Threat) : Bool :=
  truthyStr log_entry.source_ip && truthyList threat.ip_addresses &&
    threat.ip_addresses.contains (log_entry.source_ip.getD "")

/-- Guarded domain condition of `_calculate_correlation_score`. -/
def domain_match (log_entry : LogEntry) (threat : Threat) : Bool :=
  truthyStr log_entry.domain && truthyList threat.domains &&
    threat.domains.contains (log_entry.domain.getD "")

/-- Guarded URL condition of `_calculate_correlation_score`: the loop
`for threat_url in threat['urls']: if threat_url in log_entry['url']` adds the
weight once if any threat URL is a substring of the log URL. -/
def url_match (log_entry : LogEntry) (threat : Threat) : Bool :=
  truthyStr log_entry.url && truthyList threat.urls &&
    threat.urls.any (fun threat_url => pyInStr threat_url (log_entry.url.getD ""))

/-- Guarded file-hash condition of `_calculate_correlation_score`:
`log_entry['file_hash'] in threat['file_hashes'].values()`. -/
def hash_match (log_entry : LogEntry) (threat : Threat) : Bool :=
  truthyStr log_entry.file_hash && !threat.file_hashes.isEmpty &&
    (threat.file_hashes.map Prod.snd).contains (log_entry.file_hash.getD "")

/-- The `severity_boost` dict lookup with default `0.0`
(`severity_boost.get(..., 0.0)`). -/
def severity_boost (severity : String) : ℚ :=
  if severity = "critical" then 0.2
  else if severity = "high" then 0.15
  else if severity = "medium" then 0.1
  else if severity = "low" then 0.05
  else 0

/-- Temporal term of `_calculate_correlation_score`:
`days_old = (datetime.utcnow() - threat['discovered_date']).days` with timestamps in
POSIX seconds; `timedelta.days` is floor division by 86400. -/
def recency_score (now : Int) (discovered_date : Option Int) : ℚ :=
  match discovered_date with
  | none => 0
  | some d =>
    let days_old : Int := Int.fdiv (now - d) 86400
    if days_old ≤ 7 then 0.1 else if days_old ≤ 30 then 0.05 else 0

/-- `LogCorrelator._calculate_correlation_score`. -/
def _calculate_correlation_score (now : Int) (log_entry : LogEntry) (threat : Threat) : ℚ :=
  let score : ℚ := 0
  let score := if ip_match log_entry threat then score + 0.4 else score
  let score := if domain_match log_entry threat then score + 0.3 else score
  let score := if url_match log_entry threat then score + 0.3 else score
  let score := if hash_match log_entry threat then score + 0.5 else score
  let score := score + recency_score now threat.discovered_date
  let score := score + severity_boost (threat.severity.getD "low")
  min 1 score

/-- `LogCorrelator._get_matched_indicators`. -/
def _get_matched_indicators (log_entry : LogEntry) (threat : Threat) : List String :=
  let indicators : List String := []
  let indicators := if pyInList log_entry.source_ip threat.ip_addresses then
    indicators ++ ["IP: " ++ log_entry.source_ip.getD ""] else indicators
  let indicators := if pyInList log_entry.domain threat.domains then
    indicators ++ ["Domain: " ++ log_entry.domain.getD ""] else indicators
  let indicators := if pyInList log_entry.file_hash (threat.file_hashes.map Prod.snd) then
    indicators ++ ["Hash: " ++ log_entry.file_hash.getD ""] else indicators
  indicators

/-- `LogCorrelator._get_correlation_type`. -/
def _get_correlation_type (log_entry : LogEntry) (threat : Threat) : String :=
  if pyInList log_entry.source_ip threat.ip_addresses then "ip_match"
  else if pyInList log_entry.domain threat.domains then "domain_match"
  else if pyInList log_entry.file_hash (threat.file_hashes.map Prod.snd) then "hash_match"
  else "pattern_match"

/-- The correlation dict built by `correlate_log` for a candidate threat. -/
structure Correlation where
  threat_id : Int
  threat_title : String
  score : ℚ
  matched_indicators : List String
  correlation_type : String
  deriving DecidableEq

/-- The correlation dict assigned to `best_correlation` in `correlate_log`'s loop. -/
def correlation_of (now : Int) (log_entry : LogEntry) (threat : Threat) : Correlation :=
  { threat_id := threat.id
    threat_title := threat.title
    score := _calculate_correlation_score now log_entry threat
    matched_indicators := _get_matched_indicators log_entry threat
    correlation_type := _get_correlation_type log_entry threat }

/-- One iteration of `correlate_log`'s candidate loop: replace the running best on a
strictly greater score (`if score > best_score`). -/
def correlate_step (now : Int) (log_entry : LogEntry) (acc : Option Correlation × ℚ)
    (threat : Threat) : Option Correlation × ℚ :=
  let score := _calculate_correlation_score now log_entry threat
  if score > acc.2 then (some (correlation_of now log_entry threat), score) else acc

/-- `correlate_log`'s loop over the candidate threats, starting from
`best_correlation = None`, `best_score = 0.0`. -/
def correlate_best (now : Int) (log_entry : LogEntry) (threats : List Threat) :
    Option Correlation × ℚ :=
  threats.foldl (correlate_step now log_entry) (none, 0)

/-- `LogCorrelator.correlate_log`: the log entry fetched by `_get_log_entry` is
passed as `log_entry` (`none` models a missing row), the candidates fetched by
`_get_relevant_threats` as `threats`.  The function returns `best_correlation`
unconditionally; the `> 0.7` threshold gates only the database update, see
`correlate_log_updates`. -/
def correlate_log (now : Int) (log_entry : Option LogEntry) (threats : List Threat) :
    Option Correlation :=
  match log_entry with
  | none => none
  | some log => (correlate_best now log threats).1

/-- Whether `correlate_log` performs `_update_log_correlation`
(`if best_correlation and best_score > self.correlation_threshold`). -/
def correlate_log_updates (now : Int) (log_entry : Option LogEntry)
    (threats : List Threat) : Bool :=
  match log_entry with
  | none => false
  | some log =>
    let best := correlate_best now log threats
    best.1.isSome && decide (best.2 > correlation_threshold)

/-- The structured result dict of `process_pending_logs`. -/
structure BatchResult where
  status : String
  logs_processed : Nat
  correlations_found : Nat
  alerts_generated : Nat
  deriving DecidableEq

/-- The per-item loop of `process_pending_logs`: each element is the outcome of
`correlate_log` for one pending log (value returned, or exception raised).  The
whole loop body sits inside the method's single `try`, so an exception escapes the
loop and aborts the batch. -/
def process_items : List (Except String (Option Correlation)) → Nat → Nat →
    Except String (Nat × Nat)
  | [], correlations_found, alerts_generated => .ok (correlations_found, alerts_generated)
  | .error e :: _, _, _ => .error e
  | .ok none :: rest, correlations_found, alerts_generated =>
      process_items rest correlations_found alerts_generated
  | .ok (some correlation) :: rest, correlations_found, alerts_generated =>
      if correlation.score > correlation_threshold then
        if correlation.score > 0.8 then
          process_items rest (correlations_found + 1) (alerts_generated + 1)
        else
          process_items rest (correlations_found + 1) alerts_generated
      else
        process_items rest correlations_found alerts_generated

/-- `LogCorrelator.process_pending_logs`: `pending_logs` is the outcome of
`_get_pending_logs` (an exception there is a systemic failure), each list element
the outcome of `correlate_log` for that pending log. -/
def process_pending_logs
    (pending_logs : Except String (List (Except String (Option Correlation)))) :
    Except String BatchResult :=
  match pending_logs with
  | .error e => .error e
  | .ok pending =>
    match process_items pending 0 0 with
    | .error e => .error e
    | .ok (correlations_found, alerts_generated) =>
      .ok { status := "completed"
            logs_processed := pending.length
            correlations_found := correlations_found
            alerts_generated := alerts_generated }

/-! ### Risk scorer — src/backend/app/ml/risk_scorer.py -/

/-- `RiskScorer.feature_names`. -/
def feature_names : List String :=
  ["cvss_score", "source_reliability", "threat_age_days", "ioc_count",
   "external_references", "exploit_availability", "target_prevalence"]

/-- `RiskScorer._get_risk_level`. -/
def _get_risk_level (risk_score : ℚ) : String :=
  if risk_score ≥ 8 then "critical"
  else if risk_score ≥ 6 then "high"
  else if risk_score ≥ 4 then "medium"
  else if risk_score ≥ 2 then "low"
  else "minimal"

/-- The result dict of `RiskScorer.score_threat`. -/
structure ScoreResult where
  threat_id : Int
  risk_score : ℚ
  risk_level : String
  features_used : List (String × ℚ)
  deriving DecidableEq

/-- `RiskScorer.score_threat`: the persisted regression model is an external
collaborator, passed as `model` (`none` models a failing `joblib.load`, whose
exception propagates to the caller); `features` is the vector produced by
`_extract_features`. -/
def score_threat (model : Option (List ℚ → ℚ)) (threat_id : Int) (features : List ℚ) :
    Except String ScoreResult :=
  match model with
  | none => .error "ModelUnavailable"
  | some predict =>
    let risk_score := predict features
    let risk_score := max 0 (min 10 risk_score)
    .ok { threat_id := threat_id
          risk_score := risk_score
          risk_level := _get_risk_level risk_score
          features_used := feature_names.zip features }

/-! ### Entity extractor — src/backend/app/nlp/entity_extractor.py

Literal `\x7b` / `\x7d` escapes in the regex pattern strings below encode the
brace characters of the original Python pattern literals. -/

def ip_pattern : String := "\\b(?:[0-9]\x7b1,3\x7d\\.)\x7b3\x7d[0-9]\x7b1,3\x7d\\b"

def domain_pattern : String :=
  "\\b(?:[a-zA-Z0-9](?:[a-zA-Z0-9\\-]\x7b0,61\x7d[a-zA-Z0-9])?\\.)+[a-zA-Z]\x7b2,\x7d\\b"

def url_pattern : String := "https?://[^\\s<>\"\x7b\x7d|\\\\^`\\[\\]]+"

def email_pattern : String :=
  "\\b[A-Za-z0-9._%+-]+@[A-Za-z0-9.-]+\\.[A-Z|a-z]\x7b2,\x7d\\b"

def md5_pattern : String := "\\b[a-fA-F0-9]\x7b32\x7d\\b"

def sha1_pattern : String := "\\b[a-fA-F0-9]\x7b40\x7d\\b"

def sha256_pattern : String := "\\b[a-fA-F0-9]\x7b64\x7d\\b"

def cve_pattern : String := "CVE-\\d\x7b4\x7d-\\d\x7b4,7\x7d"

def cpe_pattern : String := "cpe:2\\.3:[aho\\*\\-]"

/-- `self.ioc_patterns`, in insertion order. -/
def ioc_patterns : List (String × String) :=
  [("ip", ip_pattern), ("domain", domain_pattern), ("url", url_pattern),
   ("email", email_pattern), ("md5", md5_pattern), ("sha1", sha1_pattern),
   ("sha256", sha256_pattern), ("cve", cve_pattern), ("cpe", cpe_pattern)]

/-- `self.attack_patterns`, in insertion order. -/
def attack_patterns : List (String × List String) :=
  [("malware_families",
    ["wannacry", "petya", "notpetya", "ryuk", "maze", "revil", "conti",
     "emotet", "trickbot", "qakbot", "dridex", "zeus", "carbanak"]),
   ("attack_techniques",
    ["sql injection", "xss", "csrf", "lfi", "rfi", "xxe", "ssrf",
     "privilege escalation", "lateral movement", "data exfiltration",
     "command injection", "buffer overflow", "heap overflow"]),
   ("attack_vectors",
    ["phishing", "spear phishing", "watering hole", "drive by download",
     "supply chain", "insider threat", "social engineering"])]

/-- A loaded spaCy pipeline: the `en_core_web_sm` model (a function from text to the
document's labelled entities as (label, text) pairs, or an inference exception), or
the blank `spacy.blank("en")` pipeline, which has no NER stage and yields no
entities. -/
inductive Nlp where
  | model (ents : String → Except String (List (String × String)))
  | blank

/-- Environment outcome of `spacy.load("en_core_web_sm")`: success, `OSError` (model
not installed), or any other exception. -/
inductive SpacyLoad where
  | loaded (ents : String → Except String (List (String × String)))
  | osError
  | fatal

/-- `EntityExtractor._initialize_nlp`: lazily populates `self.nlp`; on `OSError`
falls back to the blank model; on any other load failure the outer `except` leaves
`self.nlp = None`. -/
def _initialize_nlp (load : SpacyLoad) (nlp : Option Nlp) : Option Nlp :=
  match nlp with
  | some m => some m
  | none =>
    match load with
    | .loaded ents => some (.model ents)
    | .osError => some .blank
    | .fatal => none

/-- Applying the pipeline to text (`doc = self.nlp(text)`), yielding `doc.ents`. -/
def Nlp.run : Nlp → String → Except String (List (String × String))
  | .model ents, text => ents text
  | .blank, _ => .ok []

/-- The `entity_types` list of `_extract_named_entities`. -/
def entity_types : List String := ["PERSON", "ORG", "GPE", "PRODUCT", "EVENT"]

/-- `EntityExtractor._extract_named_entities`; returns the entity dict and the
updated `self.nlp` cache.  `list(set(...))` is modelled as order-preserving
deduplication.  The inner `try` swallows inference errors, returning the entities
collected so far (the empty dict). -/
def _extract_named_entities (load : SpacyLoad) (nlp0 : Option Nlp) (text : String) :
    List (String × List String) × Option Nlp :=
  match _initialize_nlp load nlp0 with
  | none => ([], none)
  | some nlp =>
    match nlp.run text with
    | .error _ => ([], some nlp)
    | .ok doc_ents =>
      let entities := entity_types.foldl (fun entities ent_type =>
        let ents := (doc_ents.filter (fun ent => ent.1 == ent_type)).map Prod.snd
        if !ents.isEmpty then entities ++ [(pyLower ent_type, ents.dedup)]
        else entities) []
      (entities, some nlp)

/-- `EntityExtractor._filter_false_positives` (the `matches` parameter is named
`matchList` because `matches` is reserved in Lean). -/
def _filter_false_positives (ioc_type : String) (matchList : List String) : List String :=
  matchList.filter (fun m =>
    if ioc_type = "ip" then
      !(pyStartswith m "192.168." || pyStartswith m "10." ||
        pyStartswith m "127." || pyStartswith m "172.")
    else if ioc_type = "domain" then
      !(["example.com", "test.com", "localhost"].any (fun fp => pyInStr fp (pyLower m)))
    else
      true)

/-- `EntityExtractor._extract_iocs`: `findall` is the Python `re.findall` engine
(applied with `re.IGNORECASE`), passed as an external parameter;
`list(set(matches))` is modelled as order-preserving deduplication. -/
def _extract_iocs (findall : String → String → List String) (text : String) :
    List (String × List String) :=
  ioc_patterns.foldl (fun iocs p =>
    let matchList := findall p.2 text
    if !matchList.isEmpty then
      let unique_matches := matchList.dedup
      let filtered_matches := _filter_false_positives p.1 unique_matches
      if !filtered_matches.isEmpty then iocs ++ [(p.1, filtered_matches)] else iocs
    else iocs) []

/-- `EntityExtractor._extract_attack_patterns`. -/
def _extract_attack_patterns (text : String) : List (String × List String) :=
  let text_lower := pyLower text
  attack_patterns.foldl (fun patterns p =>
    let found_patterns := p.2.filter (fun pat => pyInStr (pyLower pat) text_lower)
    if !found_patterns.isEmpty then patterns ++ [(p.1, found_patterns)] else patterns) []

/-- Sum of `len(v)` over a dict's values. -/
def dictValuesLen (d : List (String × List String)) : Nat :=
  (d.map (fun kv => kv.2.length)).sum

/-- Python `{**a, **b}` (keys of `b` override equal keys of `a`); the order of the
surviving pairs is irrelevant to every use here, which only sums value lengths. -/
def pyDictMerge (a b : List (String × List String)) : List (String × List String) :=
  a.filter (fun kv => !(b.any (fun kv2 => kv2.1 == kv.1))) ++ b

/-- `EntityExtractor._calculate_confidence`. -/
def _calculate_confidence (iocs entities patterns : List (String × List String)) : ℚ :=
  let total_entities := dictValuesLen (pyDictMerge (pyDictMerge iocs entities) patterns)
  if total_entities = 0 then 0
  else
    let ioc_weight : ℚ := 0.4
    let entity_weight : ℚ := 0.3
    let pattern_weight : ℚ := 0.3
    let ioc_score := min 1 ((dictValuesLen iocs : ℚ) / 5) * ioc_weight
    let entity_score := min 1 ((dictValuesLen entities : ℚ) / 5) * entity_weight
    let pattern_score := min 1 ((dictValuesLen patterns : ℚ) / 3) * pattern_weight
    ioc_score + entity_score + pattern_score

/-- The result dict of `extract_from_threat` (`total_entities` is absent on the
empty-text early return, hence the `Option`). -/
structure ExtractionResult where
  threat_id : Int
  entities : List (String × List String)
  iocs : List (String × List String)
  attack_patterns : List (String × List String)
  confidence : ℚ
  total_entities : Option Nat
  deriving DecidableEq

/-- External collaborators of the extractor: the regex engine and the spaCy
loader. -/
structure ExtractEnv where
  findall : String → String → List String
  load : SpacyLoad

/-- `EntityExtractor.extract_from_threat` on one threat: `threat_text` is the
database text for `threat_id` (the empty string models a falsy `threat_text`),
`nlp0` the current `self.nlp` cache.  Returns the result dict and the updated
cache.  Once the named-entity stage has swallowed its model errors no statement in
the body can raise, so the surrounding `try/except/raise` never re-raises and the
embedding is a total function. -/
def extract_from_threat (env : ExtractEnv) (nlp0 : Option Nlp) (threat_id : Int)
    (threat_text : String) : ExtractionResult × Option Nlp :=
  if threat_text = "" then
    ({ threat_id := threat_id, entities := [], iocs := [], attack_patterns := [],
       confidence := 0, total_entities := none }, nlp0)
  else
    let iocs := _extract_iocs env.findall threat_text
    let ne := _extract_named_entities env.load nlp0 threat_text
    let entities := ne.1
    let patterns := _extract_attack_patterns threat_text
    let confidence := _calculate_confidence iocs entities patterns
    ({ threat_id := threat_id, entities := entities, iocs := iocs,
       attack_patterns := patterns, confidence := confidence,
       total_entities :=
         some (dictValuesLen (pyDictMerge (pyDictMerge entities iocs) patterns)) },
     ne.2)

/-! ### Spec-side definitions, for the refinement comparisons -/

/-- Severity term exactly as claim C3 words it: unspecified severity contributes 0,
a present severity is looked up in the fixed table (unknown values contribute 0). -/
def severity_term_claimed (severity : Option String) : ℚ :=
  match severity with
  | none => 0
  | some s => severity_boost s

/-- Severity term as the code actually behaves: an unspecified severity is defaulted
to `'low'` and contributes +0.05; an unknown severity string contributes 0. -/
def severity_term_amended (severity : Option String) : ℚ :=
  match severity with
  | none => 0.05
  | some s => severity_boost s

/-- Correlation score as claim C3 states it: an independent sum of the applicable
signal terms, clamped to 1. -/
def correlation_score_claimed (now : Int) (log_entry : LogEntry) (threat : Threat) : ℚ :=
  min 1 ((if ip_match log_entry threat then 0.4 else 0) +
         (if domain_match log_entry threat then 0.3 else 0) +
         (if url_match log_entry threat then 0.3 else 0) +
         (if hash_match log_entry threat then 0.5 else 0) +
         recency_score now threat.discovered_date +
         severity_term_claimed threat.severity)

/-- Correlation score as the amended claim C3 states it; only the
unspecified-severity term differs from `correlation_score_claimed`. -/
def correlation_score_amended (now : Int) (log_entry : LogEntry) (threat : Threat) : ℚ :=
  min 1 ((if ip_match log_entry threat then 0.4 else 0) +
         (if domain_match log_entry threat then 0.3 else 0) +
         (if url_match log_entry threat then 0.3 else 0) +
         (if hash_match log_entry threat then 0.5 else 0) +
         recency_score now threat.discovered_date +
         severity_term_amended threat.severity)

/-- Decimal value of a nonempty digit string, for the spec-side IPv4 range test. -/
def parseNatDigits (cs : List Char) : Option Nat :=
  if cs.isEmpty || !(cs.all Char.isDigit) then none
  else some (cs.foldl (fun n c => 10 * n + (c.toNat - '0'.toNat)) 0)

/-- Splitting a character list at `'.'` separators. -/
def splitOnDot : List Char → List Char → List (List Char)
  | [], acc => [acc.reverse]
  | c :: rest, acc =>
    if c = '.' then acc.reverse :: splitOnDot rest [] else splitOnDot rest (c :: acc)

/-- Spec-side predicate for claim C5: the dotted-quad IPv4 string lies in one of the
private/reserved ranges 10.0.0.0/8, 172.16.0.0/12, 192.168.0.0/16, 127.0.0.0/8. -/
def spec_private_reserved_ip (s : String) : Bool :=
  match (splitOnDot s.data []).map parseNatDigits with
  | [some a, some b, some c, some d] =>
    (decide (a ≤ 255) && decide (b ≤ 255) && decide (c ≤ 255) && decide (d ≤ 255)) &&
      (a == 10 || (a == 172 && decide (16 ≤ b) && decide (b ≤ 31)) ||
       (a == 192 && b == 168) || a == 127)
  | _ => false

/-- Keys of a dict. -/
def dictKeys (d : List (String × List String)) : List String := d.map Prod.fst

/-- All values of a dict of lists, concatenated. -/
def dictAllValues (d : List (String × List String)) : List String :=
  (d.map Prod.snd).flatten

/-- Cardinality of the union of a dict's value lists (claim C6's per-group count). -/
def unionCount (d : List (String × List String)) : Nat :=
  (dictAllValues d).dedup.length

/-- `RiskScorer._extract_features` (the dummy feature vector). -/
def _extract_features : List ℚ := [7.5, 0.8, 5.0, 12.0, 3.0, 0.6, 0.7]

/-! ### Concrete inputs used by witnesses and counterexamples -/

/-- Log event of §8 scenario A of the spec (source IP only). -/
def logA : LogEntry := { id := 1, source_ip := some "203.0.113.42" }

/-- Threat of §8 scenario A: matching IP, severity high, discovered 2 days before
`nowA`. -/
def threatA : Threat :=
  { id := 1, title := "Malicious IP Campaign",
    ip_addresses := ["203.0.113.42", "198.51.100.15"], domains := ["evil-site.com"],
    severity := some "high", discovered_date := some 0 }

/-- Observation time for the scenario inputs: two days after `threatA.discovered_date`. -/
def nowA : Int := 172800

/-- Log event of §8 scenario B (source IP and domain). -/
def logB : LogEntry :=
  { id := 2, source_ip := some "203.0.113.42", domain := some "evil.example.com" }

/-- Threat of §8 scenario B. -/
def threatB : Threat :=
  { id := 5, title := "Campaign B", ip_addresses := ["203.0.113.42"],
    domains := ["evil.example.com"], severity := some "high", discovered_date := some 0 }

/-- A log event matching only through a URL substring. -/
def logC8 : LogEntry := { id := 3, url := some "http://evil-site.net/payload.exe" }

/-- A threat carrying only a URL indicator (severity string outside the boost table). -/
def threatC8 : Threat := { id := 9, title := "URL threat", urls := ["evil-site.net"],
                           severity := some "unknown" }

/-- A log event and threat with every field absent. -/
def logC3 : LogEntry := { id := 10 }

/-- A threat dict with no indicator fields and no `severity` key. -/
def threatC3 : Threat := { id := 11 }

/-! ### Helper lemmas -/

lemma severity_boost_nonneg (s : String) : 0 ≤ severity_boost s := by
  unfold severity_boost; split_ifs <;> norm_num

lemma severity_boost_le (s : String) : severity_boost s ≤ 0.2 := by
  unfold severity_boost; split_ifs <;> norm_num

lemma recency_score_nonneg (now : Int) (d : Option Int) : 0 ≤ recency_score now d := by
  cases d with
  | none => simp [recency_score]
  | some x => simp only [recency_score]; split_ifs <;> norm_num

lemma recency_score_le (now : Int) (d : Option Int) : recency_score now d ≤ 0.1 := by
  cases d with
  | none => simp [recency_score]; norm_num
  | some x => simp only [recency_score]; split_ifs <;> norm_num

lemma severity_boost_low : severity_boost "low" = 0.05 := rfl

lemma severity_boost_high : severity_boost "high" = 0.15 := rfl

lemma severity_boost_unknown : severity_boost "unknown" = 0 := rfl

lemma severity_term_amended_eq (severity : Option String) :
    severity_term_amended severity = severity_boost (severity.getD "low") := by
  cases severity <;> rfl

/-- The sequential accumulation of `_calculate_correlation_score` equals the clamped
sum of its independent signal terms. -/
lemma calc_score_closed_form (now : Int) (log_entry : LogEntry) (threat : Threat) :
    _calculate_correlation_score now log_entry threat =
      min 1 ((if ip_match log_entry threat then 0.4 else 0) +
             (if domain_match log_entry threat then 0.3 else 0) +
             (if url_match log_entry threat then 0.3 else 0) +
             (if hash_match log_entry threat then 0.5 else 0) +
             recency_score now threat.discovered_date +
             severity_boost (threat.severity.getD "low")) := by
  unfold _calculate_correlation_score
  by_cases h1 : ip_match log_entry threat = true <;>
    by_cases h2 : domain_match log_entry threat = true <;>
      by_cases h3 : url_match log_entry threat = true <;>
        by_cases h4 : hash_match log_entry threat = true <;>
          simp [h1, h2, h3, h4] <;> ring_nf

lemma calc_score_nonneg (now : Int) (log_entry : LogEntry) (threat : Threat) :
    0 ≤ _calculate_correlation_score now log_entry threat := by
  rw [calc_score_closed_form]
  refine le_min (by norm_num) ?_
  have h5 := recency_score_nonneg now threat.discovered_date
  have h6 := severity_boost_nonneg (threat.severity.getD "low")
  split_ifs <;> linarith

/-! ### Claim C3 -/

/-- Claim C3 (corrected, amended claim).  The correlation score is the clamped sum of
the independent signal terms — +0.4 IP, +0.3 domain, +0.3 URL substring, +0.5 file
hash, the recency term, and a severity boost of +0.2 critical / +0.15 high /
+0.1 medium / +0.05 low — except that an *unspecified* severity is defaulted to
`low` and contributes +0.05 (not +0 as the claim states); a severity string outside
the table contributes +0. -/
theorem calculate_correlation_score_signal_sum (now : Int) (log_entry : LogEntry)
    (threat : Threat) :
    _calculate_correlation_score now log_entry threat =
      correlation_score_amended now log_entry threat := by
  rw [calc_score_closed_form]
  unfold correlation_score_amended
  rw [severity_term_amended_eq]

/-- Claim C3 (counterexample).  A threat with no `severity` key and no matching
indicator scores 0.05 under the code (severity defaulted to `'low'`) whereas the
claimed formula — severity boost +0 when unspecified — yields 0. -/
theorem correlation_score_unspecified_severity :
    _calculate_correlation_score 0 logC3 threatC3 = 0.05 ∧
      correlation_score_claimed 0 logC3 threatC3 = 0 ∧
      _calculate_correlation_score 0 logC3 threatC3 ≠
        correlation_score_claimed 0 logC3 threatC3 := by
  have h1 : ip_match logC3 threatC3 = false := by decide
  have h2 : domain_match logC3 threatC3 = false := by decide
  have h3 : url_match logC3 threatC3 = false := by decide
  have h4 : hash_match logC3 threatC3 = false := by decide
  have hd : threatC3.discovered_date = none := rfl
  have hs : threatC3.severity = none := rfl
  have hcode : _calculate_correlation_score 0 logC3 threatC3 = 0.05 := by
    rw [calc_score_closed_form, h1, h2, h3, h4, hd, hs]
    norm_num [recency_score, Option.getD_none, severity_boost_low, min_def]
  have hclaim : correlation_score_claimed 0 logC3 threatC3 = 0 := by
    unfold correlation_score_claimed
    rw [h1, h2, h3, h4, hd, hs]
    norm_num [recency_score, severity_term_claimed, min_def]
  refine ⟨hcode, hclaim, ?_⟩
  rw [hcode, hclaim]
  norm_num

/-! ### Claim C4 -/

lemma get_risk_level_critical (s : ℚ) : _get_risk_level s = "critical" ↔ 8 ≤ s := by
  unfold _get_risk_level
  split_ifs with h1 h2 h3 h4 <;> simp_all <;> linarith

lemma get_risk_level_high (s : ℚ) : _get_risk_level s = "high" ↔ 6 ≤ s ∧ s < 8 := by
  unfold _get_risk_level
  split_ifs with h1 h2 h3 h4 <;> simp_all <;> intro h <;> linarith

lemma get_risk_level_medium (s : ℚ) : _get_risk_level s = "medium" ↔ 4 ≤ s ∧ s < 6 := by
  unfold _get_risk_level
  split_ifs with h1 h2 h3 h4 <;> simp_all <;> intro h <;> linarith

lemma get_risk_level_low (s : ℚ) : _get_risk_level s = "low" ↔ 2 ≤ s ∧ s < 4 := by
  unfold _get_risk_level
  split_ifs with h1 h2 h3 h4 <;> simp_all <;> intro h <;> linarith

lemma get_risk_level_minimal (s : ℚ) : _get_risk_level s = "minimal" ↔ s < 2 := by
  unfold _get_risk_level
  split_ifs with h1 h2 h3 h4 <;> simp_all <;> linarith

/-- Claim C4 (confirmed).  Every risk score returned by `score_threat` is the raw model
output clamped into [0, 10], and the risk band is assigned by the closed-open
intervals with exact boundaries: ≥ 8 critical, [6, 8) high, [4, 6) medium,
[2, 4) low, < 2 minimal; in particular 8.0 banbs critical and 7.999 bands high. -/
theorem score_threat_bounds_and_bands (model : Option (List ℚ → ℚ)) (threat_id : Int)
    (features : List ℚ) (r : ScoreResult)
    (h : score_threat model threat_id features = .ok r) :
    0 ≤ r.risk_score ∧ r.risk_score ≤ 10 ∧
    (r.risk_level = "critical" ↔ 8 ≤ r.risk_score) ∧
    (r.risk_level = "high" ↔ 6 ≤ r.risk_score ∧ r.risk_score < 8) ∧
    (r.risk_level = "medium" ↔ 4 ≤ r.risk_score ∧ r.risk_score < 6) ∧
    (r.risk_level = "low" ↔ 2 ≤ r.risk_score ∧ r.risk_score < 4) ∧
    (r.risk_level = "minimal" ↔ r.risk_score < 2) ∧
    _get_risk_level 8 = "critical" ∧ _get_risk_level 7.999 = "high" := by
  cases model with
  | none => simp [score_threat] at h
  | some predict =>
    simp only [score_threat, Except.ok.injEq] at h
    subst h
    refine ⟨le_max_left 0 _, ?_, get_risk_level_critical _, get_risk_level_high _,
      get_risk_level_medium _, get_risk_level_low _, get_risk_level_minimal _, ?_, ?_⟩
    · exact max_le (by norm_num) (min_le_left 10 _)
    · norm_num [_get_risk_level]
    · norm_num [_get_risk_level]

/-- The result dict `score_threat` produces from the dummy feature vector and a
constant model predicting 7.5. -/
def scoreResultW : ScoreResult :=
  { threat_id := 1, risk_score := 7.5, risk_level := "high",
    features_used := feature_names.zip _extract_features }

theorem score_threat_bounds_and_bands_witness :
    0 ≤ scoreResultW.risk_score ∧ scoreResultW.risk_score ≤ 10 ∧
    (scoreResultW.risk_level = "critical" ↔ 8 ≤ scoreResultW.risk_score) ∧
    (scoreResultW.risk_level = "high" ↔ 6 ≤ scoreResultW.risk_score ∧
      scoreResultW.risk_score < 8) ∧
    (scoreResultW.risk_level = "medium" ↔ 4 ≤ scoreResultW.risk_score ∧
      scoreResultW.risk_score < 6) ∧
    (scoreResultW.risk_level = "low" ↔ 2 ≤ scoreResultW.risk_score ∧
      scoreResultW.risk_score < 4) ∧
    (scoreResultW.risk_level = "minimal" ↔ scoreResultW.risk_score < 2) ∧
    _get_risk_level 8 = "critical" ∧ _get_risk_level 7.999 = "high" :=
  score_threat_bounds_and_bands (some (fun _ => 7.5)) 1 _extract_features scoreResultW
    (by norm_num [score_threat, scoreResultW, _get_risk_level, min_def, max_def])

/-! ### Claim C5 -/

/-- Claim C5 (corrected, amended claim).  The IP false-positive filter keeps an
extracted IPv4 string iff it does not start with one of the four literal prefixes
`'192.168.'`, `'10.'`, `'127.'`, `'172.'` — i.e. for `172.*` it discards the whole
of 172.0.0.0/8, not only 172.16.0.0/12.  The spec's own scenario
(`192.168.1.1` vs `203.0.113.42`) behaves as stated. -/
theorem filter_false_positives_ip_prefixes (matchList : List String) (m : String) :
    (m ∈ _filter_false_positives "ip" matchList ↔
      m ∈ matchList ∧
        (pyStartswith m "192.168." || pyStartswith m "10." ||
         pyStartswith m "127." || pyStartswith m "172.") = false) ∧
    _filter_false_positives "ip" ["192.168.1.1", "203.0.113.42"] = ["203.0.113.42"] := by
  refine ⟨?_, by decide⟩
  unfold _filter_false_positives
  simp [List.mem_filter]

/-- Claim C5 (counterexample).  `"172.32.0.1"` lies outside every one of the four spec
ranges (it is in 172.32.0.0/11, public space), yet the filter discards it because
`startswith('172.')` matches all of 172.0.0.0/8. -/
theorem filter_false_positives_discards_public_172 :
    _filter_false_positives "ip" ["172.32.0.1"] = [] ∧
      spec_private_reserved_ip "172.32.0.1" = false := by
  constructor <;> decide

/-! ### Concrete score evaluations -/

lemma scoreA_eval : _calculate_correlation_score nowA logA threatA = 0.65 := by
  have h1 : ip_match logA threatA = true := by decide
  have h2 : domain_match logA threatA = false := by decide
  have h3 : url_match logA threatA = false := by decide
  have h4 : hash_match logA threatA = false := by decide
  have hd : threatA.discovered_date = some 0 := rfl
  have hs : threatA.severity = some "high" := rfl
  have hf : Int.fdiv (nowA - 0) 86400 = 2 := by decide
  have hrec : recency_score nowA (some 0) = 0.1 := by
    simp only [recency_score, hf]
    norm_num
  rw [calc_score_closed_form, h1, h2, h3, h4, hd, hs, hrec]
  norm_num [severity_boost_high, min_def]

lemma scoreB_eval : _calculate_correlation_score nowA logB threatB = 0.95 := by
  have h1 : ip_match logB threatB = true := by decide
  have h2 : domain_match logB threatB = true := by decide
  have h3 : url_match logB threatB = false := by decide
  have h4 : hash_match logB threatB = false := by decide
  have hd : threatB.discovered_date = some 0 := rfl
  have hs : threatB.severity = some "high" := rfl
  have hf : Int.fdiv (nowA - 0) 86400 = 2 := by decide
  have hrec : recency_score nowA (some 0) = 0.1 := by
    simp only [recency_score, hf]
    norm_num
  rw [calc_score_closed_form, h1, h2, h3, h4, hd, hs, hrec]
  norm_num [severity_boost_high, min_def]

lemma scoreC8_eval : _calculate_correlation_score 0 logC8 threatC8 = 0.3 := by
  have h1 : ip_match logC8 threatC8 = false := by decide
  have h2 : domain_match logC8 threatC8 = false := by decide
  have h3 : url_match logC8 threatC8 = true := by decide
  have h4 : hash_match logC8 threatC8 = false := by decide
  have hd : threatC8.discovered_date = none := rfl
  have hs : threatC8.severity = some "unknown" := rfl
  rw [calc_score_closed_form, h1, h2, h3, h4, hd, hs]
  norm_num [recency_score, severity_boost_unknown, min_def]

/-! ### Lemmas about the candidate-selection fold of `correlate_log` -/

lemma correlate_step_snd (now : Int) (log_entry : LogEntry) (acc : Option Correlation × ℚ)
    (threat : Threat) :
    (correlate_step now log_entry acc threat).2 =
      max acc.2 (_calculate_correlation_score now log_entry threat) := by
  simp only [correlate_step]
  split_ifs with h
  · exact (max_eq_right (le_of_lt h)).symm
  · exact (max_eq_left (not_lt.mp h)).symm

lemma correlate_best_snd (now : Int) (log_entry : LogEntry) (threats : List Threat) :
    ∀ acc : Option Correlation × ℚ,
      (threats.foldl (correlate_step now log_entry) acc).2 =
        threats.foldl
          (fun b t => max b (_calculate_correlation_score now log_entry t)) acc.2 := by
  induction threats with
  | nil => intro acc; rfl
  | cons t ts ih =>
    intro acc
    rw [List.foldl_cons, List.foldl_cons, ih, correlate_step_snd]

lemma foldl_max_init_le {α : Type} (f : α → ℚ) (l : List α) :
    ∀ b : ℚ, b ≤ l.foldl (fun b x => max b (f x)) b := by
  induction l with
  | nil => intro b; exact le_refl b
  | cons x xs ih => intro b; exact le_trans (le_max_left _ _) (ih _)

lemma le_foldl_max {α : Type} (f : α → ℚ) (l : List α) :
    ∀ (b : ℚ) (x : α), x ∈ l → f x ≤ l.foldl (fun b x => max b (f x)) b := by
  induction l with
  | nil => intro b x hx; exact absurd hx (List.not_mem_nil x)
  | cons x0 xs ih =>
    intro b x hx
    rw [List.foldl_cons]
    rcases List.mem_cons.mp hx with h | h
    · subst h; exact le_trans (le_max_right _ _) (foldl_max_init_le f xs _)
    · exact ih _ x h

lemma correlate_fold_cases (now : Int) (log_entry : LogEntry) (threats : List Threat) :
    ∀ acc : Option Correlation × ℚ,
      threats.foldl (correlate_step now log_entry) acc = acc ∨
      ∃ t ∈ threats, threats.foldl (correlate_step now log_entry) acc =
        (some (correlation_of now log_entry t),
         _calculate_correlation_score now log_entry t) := by
  induction threats with
  | nil => exact fun acc => Or.inl rfl
  | cons t0 ts ih =>
    intro acc
    rw [List.foldl_cons]
    rcases ih (correlate_step now log_entry acc t0) with h | ⟨t, ht, h⟩
    · rw [h]
      simp only [correlate_step]
      split_ifs with hs
      · exact Or.inr ⟨t0, List.mem_cons_self t0 ts, rfl⟩
      · exact Or.inl rfl
    · exact Or.inr ⟨t, List.mem_cons_of_mem t0 ht, h⟩

lemma correlate_fold_stay (now : Int) (log_entry : LogEntry) (threats : List Threat) :
    ∀ acc : Option Correlation × ℚ,
      (∀ t ∈ threats, _calculate_correlation_score now log_entry t ≤ acc.2) →
      threats.foldl (correlate_step now log_entry) acc = acc := by
  induction threats with
  | nil => intro acc _; rfl
  | cons t0 ts ih =>
    intro acc h
    rw [List.foldl_cons]
    have hstep : correlate_step now log_entry acc t0 = acc := by
      simp only [correlate_step]
      exact if_neg (not_lt.mpr (h t0 (List.mem_cons_self t0 ts)))
    rw [hstep]
    exact ih acc (fun t ht => h t (List.mem_cons_of_mem t0 ht))

/-! ### Claim C1 -/

/-- Claim C1 (corrected, amended claim).  `correlate_log` returns the single
best-scoring correlation whenever some candidate scores strictly above 0 — even
when the best score does not clear the 0.7 threshold — and returns `none` exactly
when every candidate scores ≤ 0; only the *persistence* of the correlation to the
log row (`_update_log_correlation`) is gated by `best score > 0.7`. -/
theorem correlate_log_threshold_behavior (now : Int) (log_entry : LogEntry)
    (threats : List Threat) :
    (correlate_log now (some log_entry) threats = none ↔
      ∀ t ∈ threats, _calculate_correlation_score now log_entry t ≤ 0) ∧
    ∀ c, correlate_log now (some log_entry) threats = some c →
      (∃ t ∈ threats, c = correlation_of now log_entry t) ∧
      (∀ t ∈ threats, _calculate_correlation_score now log_entry t ≤ c.score) ∧
      0 < c.score ∧
      correlate_log_updates now (some log_entry) threats =
        decide (correlation_threshold < c.score) := by
  have hFeq : correlate_best now log_entry threats =
      threats.foldl (correlate_step now log_entry) (none, 0) := rfl
  have hlog : correlate_log now (some log_entry) threats =
      (correlate_best now log_entry threats).1 := rfl
  have hcases := correlate_fold_cases now log_entry threats (none, 0)
  have hsnd := correlate_best_snd now log_entry threats (none, 0)
  constructor
  · constructor
    · intro h t ht
      rcases hcases with hc | ⟨t', ht', hc⟩
      · have h2 : (correlate_best now log_entry threats).2 = 0 := by rw [hFeq, hc]
        have hle := le_foldl_max
          (fun t => _calculate_correlation_score now log_entry t) threats 0 t ht
        rw [← hsnd, ← hFeq, h2] at hle
        exact hle
      · rw [hlog, hFeq, hc] at h
        exact absurd h (by simp)
    · intro h
      rw [hlog, hFeq, correlate_fold_stay now log_entry threats (none, 0) (by simpa using h)]
  · intro c hc
    rcases hcases with h0 | ⟨t, ht, hfoldeq⟩
    · rw [hlog, hFeq, h0] at hc
      exact absurd hc (by simp)
    · have hceq : c = correlation_of now log_entry t := by
        rw [hlog, hFeq, hfoldeq] at hc
        exact (Option.some.inj hc).symm
      have hcscore : c.score = _calculate_correlation_score now log_entry t := by
        rw [hceq]; rfl
      have hF2 : (correlate_best now log_entry threats).2 = c.score := by
        rw [hFeq, hfoldeq, hcscore]
      have hbound : ∀ t' ∈ threats,
          _calculate_correlation_score now log_entry t' ≤ c.score := by
        intro t' ht'
        have hle := le_foldl_max
          (fun t => _calculate_correlation_score now log_entry t) threats 0 t' ht'
        rw [← hsnd, ← hFeq, hF2] at hle
        exact hle
      have hpos : 0 < c.score := by
        by_contra hle
        push_neg at hle
        have hstay := correlate_fold_stay now log_entry threats (none, 0)
          (fun t' ht' => le_trans (hbound t' ht') hle)
        rw [hlog, hFeq, hstay] at hc
        exact absurd hc (by simp)
      refine ⟨⟨t, ht, hceq⟩, hbound, hpos, ?_⟩
      have hupd : correlate_log_updates now (some log_entry) threats =
          ((correlate_best now log_entry threats).1.isSome &&
            decide ((correlate_best now log_entry threats).2 > correlation_threshold)) := rfl
      rw [hupd, ← hlog, hc, hF2]
      simp

theorem correlate_log_threshold_behavior_witness :
    (∃ t ∈ [threatA], correlation_of nowA logA threatA = correlation_of nowA logA t) ∧
    (∀ t ∈ [threatA], _calculate_correlation_score nowA logA t ≤
        (correlation_of nowA logA threatA).score) ∧
    0 < (correlation_of nowA logA threatA).score ∧
    correlate_log_updates nowA (some logA) [threatA] =
      decide (correlation_threshold < (correlation_of nowA logA threatA).score) :=
  (correlate_log_threshold_behavior nowA logA [threatA]).2
    (correlation_of nowA logA threatA)
    (by
      have h : _calculate_correlation_score nowA logA threatA > 0 := by
        rw [scoreA_eval]; norm_num
      simp [correlate_log, correlate_best, correlate_step, h])

/-- Claim C1 (counterexample).  With the single candidate of §8 scenario A scoring
0.65 — so that no candidate clears the 0.7 threshold — `correlate_log` still
returns the correlation rather than `none`. -/
theorem correlate_log_subthreshold_return :
    correlate_log nowA (some logA) [threatA] = some (correlation_of nowA logA threatA) ∧
    (correlation_of nowA logA threatA).score = 0.65 ∧
    ¬ (correlation_threshold < (correlation_of nowA logA threatA).score) := by
  have h : _calculate_correlation_score nowA logA threatA > 0 := by
    rw [scoreA_eval]; norm_num
  refine ⟨by simp [correlate_log, correlate_best, correlate_step, h], ?_, ?_⟩
  · show _calculate_correlation_score nowA logA threatA = 0.65
    exact scoreA_eval
  · show ¬ (correlation_threshold < _calculate_correlation_score nowA logA threatA)
    rw [scoreA_eval]
    norm_num [correlation_threshold]

/-! ### Claim C10 -/

/-- Claim C10 (confirmed).  A correlation score strictly above the 0.7 threshold
requires at least one indicator condition (IP, domain, URL substring or file hash)
to hold: recency contributes at most 0.1 and the severity boost at most 0.2, so a
candidate with no indicator match scores at most 0.3. -/
theorem score_above_threshold_needs_indicator (now : Int) (log_entry : LogEntry)
    (threat : Threat)
    (h : correlation_threshold < _calculate_correlation_score now log_entry threat) :
    ip_match log_entry threat = true ∨ domain_match log_entry threat = true ∨
      url_match log_entry threat = true ∨ hash_match log_entry threat = true := by
  by_contra hc
  push_neg at hc
  obtain ⟨h1, h2, h3, h4⟩ := hc
  rw [calc_score_closed_form, if_neg h1, if_neg h2, if_neg h3, if_neg h4] at h
  have hct : correlation_threshold = 0.7 := rfl
  rw [hct] at h
  have hr := recency_score_le now threat.discovered_date
  have hsv := severity_boost_le (threat.severity.getD "low")
  have hm := min_le_right (1 : ℚ)
    (0 + 0 + 0 + 0 + recency_score now threat.discovered_date +
      severity_boost (threat.severity.getD "low"))
  norm_num at h hr hsv hm
  linarith

theorem score_above_threshold_needs_indicator_witness :
    ip_match logB threatB = true ∨ domain_match logB threatB = true ∨
      url_match logB threatB = true ∨ hash_match logB threatB = true :=
  score_above_threshold_needs_indicator nowA logB threatB
    (by rw [scoreB_eval]; norm_num [correlation_threshold])

/-! ### Claim C8 -/

lemma ip_match_pyInList (log_entry : LogEntry) (threat : Threat)
    (h : ip_match log_entry threat = true) :
    pyInList log_entry.source_ip threat.ip_addresses = true := by
  cases hs : log_entry.source_ip with
  | none => rw [ip_match, hs] at h; simp [truthyStr] at h
  | some s =>
    rw [ip_match, hs] at h
    simp only [Bool.and_eq_true] at h
    simpa [pyInList] using h.2

lemma domain_match_pyInList (log_entry : LogEntry) (threat : Threat)
    (h : domain_match log_entry threat = true) :
    pyInList log_entry.domain threat.domains = true := by
  cases hs : log_entry.domain with
  | none => rw [domain_match, hs] at h; simp [truthyStr] at h
  | some s =>
    rw [domain_match, hs] at h
    simp only [Bool.and_eq_true] at h
    simpa [pyInList] using h.2

lemma hash_match_pyInList (log_entry : LogEntry) (threat : Threat)
    (h : hash_match log_entry threat = true) :
    pyInList log_entry.file_hash (threat.file_hashes.map Prod.snd) = true := by
  cases hs : log_entry.file_hash with
  | none => rw [hash_match, hs] at h; simp [truthyStr] at h
  | some s =>
    rw [hash_match, hs] at h
    simp only [Bool.and_eq_true] at h
    simpa [pyInList] using h.2

/-- Claim C8 (corrected, amended claim).  The matched-indicator list re-tests the IP,
domain and file-hash membership conditions (which coincide with the scoring
conditions whenever the log field is a nonempty string) and words each hit as
`"<Type>: <value>"`; a URL-substring match contributes +0.3 to the score but
produces **no** descriptor, and no descriptor of any other shape appears. -/
theorem matched_indicators_characterization (log_entry : LogEntry) (threat : Threat)
    (s : String) :
    (ip_match log_entry threat = true →
      ("IP: " ++ log_entry.source_ip.getD "") ∈ _get_matched_indicators log_entry threat) ∧
    (domain_match log_entry threat = true →
      ("Domain: " ++ log_entry.domain.getD "") ∈
        _get_matched_indicators log_entry threat) ∧
    (hash_match log_entry threat = true →
      ("Hash: " ++ log_entry.file_hash.getD "") ∈
        _get_matched_indicators log_entry threat) ∧
    (s ∈ _get_matched_indicators log_entry threat →
      s = "IP: " ++ log_entry.source_ip.getD "" ∨
      s = "Domain: " ++ log_entry.domain.getD "" ∨
      s = "Hash: " ++ log_entry.file_hash.getD "") := by
  refine ⟨fun h => ?_, fun h => ?_, fun h => ?_, fun h => ?_⟩
  · have hp := ip_match_pyInList log_entry threat h
    simp only [_get_matched_indicators]
    split_ifs <;> simp_all
  · have hp := domain_match_pyInList log_entry threat h
    simp only [_get_matched_indicators]
    split_ifs <;> simp_all
  · have hp := hash_match_pyInList log_entry threat h
    simp only [_get_matched_indicators]
    split_ifs <;> simp_all
  · simp only [_get_matched_indicators] at h
    split_ifs at h <;> simp_all <;> tauto

theorem matched_indicators_characterization_witness :
    ("IP: " ++ logB.source_ip.getD "") ∈ _get_matched_indicators logB threatB :=
  (matched_indicators_characterization logB threatB "").1 (by decide)

/-- Claim C8 (counterexample).  A log event and threat that match only through a URL
substring: the URL condition contributes +0.3 to the score (which is exactly 0.3
here), yet `_get_matched_indicators` returns the empty descriptor list — the URL
condition is never re-tested. -/
theorem url_match_scores_but_no_indicator :
    url_match logC8 threatC8 = true ∧
    _calculate_correlation_score 0 logC8 threatC8 = 0.3 ∧
    _get_matched_indicators logC8 threatC8 = [] := by
  refine ⟨by decide, scoreC8_eval, by decide⟩

/-! ### Claim C2 -/

/-- Whether a per-item `correlate_log` outcome is a normal return. -/
def item_isOk : Except String (Option Correlation) → Bool
  | .ok _ => true
  | .error _ => false

/-- Per-item predicate counted by `correlations_found`
(`correlation and correlation['score'] > self.correlation_threshold`). -/
def counts_correlation : Except String (Option Correlation) → Bool
  | .ok (some correlation) => decide (correlation.score > correlation_threshold)
  | _ => false

/-- Per-item predicate counted by `alerts_generated` (a correlation whose score also
exceeds 0.8). -/
def counts_alert : Except String (Option Correlation) → Bool
  | .ok (some correlation) => decide (correlation.score > 0.8)
  | _ => false

lemma process_items_ok (pending : List (Except String (Option Correlation))) :
    ∀ cf ag : Nat, (∀ item ∈ pending, item_isOk item = true) →
      process_items pending cf ag =
        .ok (cf + (pending.filter counts_correlation).length,
             ag + (pending.filter counts_alert).length) := by
  induction pending with
  | nil => intro cf ag _; simp [process_items]
  | cons item rest ih =>
    intro cf ag h
    have hrest : ∀ x ∈ rest, item_isOk x = true :=
      fun x hx => h x (List.mem_cons_of_mem item hx)
    cases item with
    | error e => exact absurd (h _ (List.mem_cons_self _ _)) (by simp [item_isOk])
    | ok oc =>
      cases oc with
      | none =>
        rw [process_items, ih cf ag hrest]
        simp [counts_correlation, counts_alert, List.filter_cons]
      | some c =>
        by_cases h7 : c.score > correlation_threshold
        · have hcc : counts_correlation (.ok (some c)) = true := by
            simp [counts_correlation, h7]
          by_cases h8 : c.score > 0.8
          · have hca : counts_alert (.ok (some c)) = true := by
              simp [counts_alert, h8]
            rw [process_items, if_pos h7, if_pos h8, ih (cf + 1) (ag + 1) hrest]
            simp [List.filter_cons, hcc, hca]
            omega
          · have hca : counts_alert (.ok (some c)) = false := by
              simp [counts_alert, h8]
            rw [process_items, if_pos h7, if_neg h8, ih (cf + 1) ag hrest]
            simp [List.filter_cons, hcc, hca]
            omega
        · have hcc : counts_correlation (.ok (some c)) = false := by
            simp [counts_correlation, h7]
          have hca : counts_alert (.ok (some c)) = false := by
            have : ¬ (c.score > 0.8) := by
              intro hgt
              exact h7 (lt_trans (by norm_num [correlation_threshold]) hgt)
            simp [counts_alert, this]
          rw [process_items, if_neg h7, ih cf ag hrest]
          simp only [List.filter_cons, hcc, hca]
          simp

lemma process_items_error (pending : List (Except String (Option Correlation))) :
    ∀ cf ag : Nat, (∃ item ∈ pending, item_isOk item = false) →
      ∃ e, process_items pending cf ag = .error e := by
  induction pending with
  | nil => rintro cf ag ⟨item, hmem, _⟩; exact absurd hmem (List.not_mem_nil item)
  | cons item rest ih =>
    rintro cf ag ⟨it, hmem, hbad⟩
    cases item with
    | error e => exact ⟨e, rfl⟩
    | ok oc =>
      have hrest : ∃ x ∈ rest, item_isOk x = false := by
        rcases List.mem_cons.mp hmem with h | h
        · subst h; simp [item_isOk] at hbad
        · exact ⟨it, h, hbad⟩
      cases oc with
      | none => simpa [process_items] using ih cf ag hrest
      | some c =>
        rw [process_items]
        split_ifs <;> exact ih _ _ hrest

/-- Claim C2 (corrected, amended claim).  Batch mode has no per-item failure
isolation: when every pending event's `correlate_log` returns normally the batch
reports `logs_processed` equal to the number of pending events together with the
correlation and alert counts, but an exception raised while correlating any single
event escapes the loop and aborts the whole batch, surfacing the error to the
caller instead of a result. -/
theorem process_pending_logs_abort_semantics
    (pending : List (Except String (Option Correlation))) :
    ((∀ item ∈ pending, item_isOk item = true) →
      process_pending_logs (.ok pending) = .ok
        { status := "completed"
          logs_processed := pending.length
          correlations_found := (pending.filter counts_correlation).length
          alerts_generated := (pending.filter counts_alert).length }) ∧
    ((∃ item ∈ pending, item_isOk item = false) →
      ∃ e, process_pending_logs (.ok pending) = .error e) := by
  constructor
  · intro h
    have hpi := process_items_ok pending 0 0 h
    simp [process_pending_logs, hpi]
  · intro h
    obtain ⟨e, he⟩ := process_items_error pending 0 0 h
    exact ⟨e, by simp [process_pending_logs, he]⟩

/-- The §8 scenario-B correlation dict (score 0.95, above both thresholds). -/
def corrHigh : Correlation :=
  { threat_id := 5, threat_title := "Campaign B", score := 0.95,
    matched_indicators := ["IP: 203.0.113.42", "Domain: evil.example.com"],
    correlation_type := "ip_match" }

/-- A concrete batch: one event with a strong correlation, one with none. -/
def pendingW : List (Except String (Option Correlation)) := [.ok (some corrHigh), .ok none]

theorem process_pending_logs_abort_semantics_witness :
    process_pending_logs (.ok pendingW) = .ok
      { status := "completed"
        logs_processed := pendingW.length
        correlations_found := (pendingW.filter counts_correlation).length
        alerts_generated := (pendingW.filter counts_alert).length } ∧
    ∃ e, process_pending_logs (.ok [Except.error "db down"]) = .error e :=
  ⟨(process_pending_logs_abort_semantics pendingW).1 (by decide),
   (process_pending_logs_abort_semantics [Except.error "db down"]).2
      ⟨Except.error "db down", List.mem_cons_self _ _, rfl⟩⟩

/-- Claim C2 (counterexample).  Two pending events, the first correlating normally with
a strong (0.95) correlation, the second raising during its scoring lookup: the
batch aborts with the exception instead of reporting `logs_processed = 2` and the
first event's outcome. -/
theorem process_pending_logs_aborts_on_item_error :
    process_pending_logs
        (.ok [Except.ok (some corrHigh), Except.error "scoring lookup failed"]) =
      .error "scoring lookup failed" := by
  have h7 : corrHigh.score > correlation_threshold := by
    norm_num [corrHigh, correlation_threshold]
  have h8 : corrHigh.score > 0.8 := by norm_num [corrHigh]
  simp [process_pending_logs, process_items, h7, h8]

/-! ### Claim C6 -/

lemma pyDictMerge_disjoint (a b : List (String × List String))
    (h : ∀ k ∈ dictKeys a, k ∉ dictKeys b) : pyDictMerge a b = a ++ b := by
  unfold pyDictMerge
  have hfilter : a.filter (fun kv => !(b.any (fun kv2 => kv2.1 == kv.1))) = a := by
    apply List.filter_eq_self.mpr
    intro kv hkv
    simp only [Bool.not_eq_true', List.any_eq_false, beq_eq_false_iff_ne, ne_eq]
    intro kv2 hkv2 heq
    have heq' : kv2.1 = kv.1 := eq_of_beq heq
    exact h kv.1 (List.mem_map_of_mem Prod.fst hkv)
      (heq' ▸ List.mem_map_of_mem Prod.fst hkv2)
  rw [hfilter]

lemma dictValuesLen_append (a b : List (String × List String)) :
    dictValuesLen (a ++ b) = dictValuesLen a + dictValuesLen b := by
  unfold dictValuesLen
  rw [List.map_append, List.sum_append]

lemma dictKeys_append (a b : List (String × List String)) :
    dictKeys (a ++ b) = dictKeys a ++ dictKeys b := by
  unfold dictKeys
  exact List.map_append _ _ _

/-- Aggregate confidence exactly as claim C6 words it: each group's count is the
cardinality of the union of the extracted values across the group's subtypes. -/
def confidence_claimed (iocs entities patterns : List (String × List String)) : ℚ :=
  0.4 * min 1 ((unionCount iocs : ℚ) / 5) +
  0.3 * min 1 ((unionCount entities : ℚ) / 5) +
  0.3 * min 1 ((unionCount patterns : ℚ) / 3)

/-- Claim C6 (corrected, amended claim).  For dicts whose key spaces are disjoint
across the IOC / entity / pattern groups — which holds for every extraction run,
since the three groups draw their keys from fixed, pairwise-disjoint namespaces —
the aggregate confidence equals 0.4·min(1, IOC_count/5) +
0.3·min(1, entity_count/5) + 0.3·min(1, pattern_count/3), where each count is the
sum over the group's subtypes of the deduplicated per-subtype list lengths (a
value extracted under two subtypes of the same group counts twice, so this is not
in general the union cardinality the original claim states); the result lies in
[0,1], and it is exactly 0 when the total extracted item count is 0. -/
theorem calculate_confidence_formula (iocs entities patterns : List (String × List String))
    (hke : ∀ k ∈ dictKeys iocs, k ∉ dictKeys entities)
    (hkp : ∀ k ∈ dictKeys iocs, k ∉ dictKeys patterns)
    (hep : ∀ k ∈ dictKeys entities, k ∉ dictKeys patterns) :
    _calculate_confidence iocs entities patterns =
      0.4 * min 1 ((dictValuesLen iocs : ℚ) / 5) +
      0.3 * min 1 ((dictValuesLen entities : ℚ) / 5) +
      0.3 * min 1 ((dictValuesLen patterns : ℚ) / 3) ∧
    0 ≤ _calculate_confidence iocs entities patterns ∧
    _calculate_confidence iocs entities patterns ≤ 1 ∧
    (dictValuesLen iocs + dictValuesLen entities + dictValuesLen patterns = 0 →
      _calculate_confidence iocs entities patterns = 0) := by
  have hm1 : pyDictMerge iocs entities = iocs ++ entities := pyDictMerge_disjoint _ _ hke
  have hm2 : pyDictMerge (iocs ++ entities) patterns = (iocs ++ entities) ++ patterns := by
    apply pyDictMerge_disjoint
    intro k hk
    rw [dictKeys_append] at hk
    rcases List.mem_append.mp hk with h | h
    · exact hkp k h
    · exact hep k h
  have htotal : dictValuesLen (pyDictMerge (pyDictMerge iocs entities) patterns) =
      dictValuesLen iocs + dictValuesLen entities + dictValuesLen patterns := by
    rw [hm1, hm2, dictValuesLen_append, dictValuesLen_append]
  by_cases h0 : dictValuesLen iocs + dictValuesLen entities + dictValuesLen patterns = 0
  · have hz : _calculate_confidence iocs entities patterns = 0 := by
      unfold _calculate_confidence
      rw [htotal, if_pos h0]
    have hzi : dictValuesLen iocs = 0 := by omega
    have hze : dictValuesLen entities = 0 := by omega
    have hzp : dictValuesLen patterns = 0 := by omega
    rw [hz, hzi, hze, hzp]
    norm_num [min_def]
  · have hconf : _calculate_confidence iocs entities patterns =
        min 1 ((dictValuesLen iocs : ℚ) / 5) * 0.4 +
        min 1 ((dictValuesLen entities : ℚ) / 5) * 0.3 +
        min 1 ((dictValuesLen patterns : ℚ) / 3) * 0.3 := by
      unfold _calculate_confidence
      rw [htotal, if_neg h0]
    have hb : ∀ (n : Nat) (q : ℚ), 0 < q →
        0 ≤ min 1 ((n : ℚ) / q) ∧ min 1 ((n : ℚ) / q) ≤ 1 := by
      intro n q hq
      exact ⟨le_min (by norm_num) (div_nonneg (Nat.cast_nonneg n) (le_of_lt hq)),
        min_le_left _ _⟩
    obtain ⟨hi0, hi1⟩ := hb (dictValuesLen iocs) 5 (by norm_num)
    obtain ⟨he0, he1⟩ := hb (dictValuesLen entities) 5 (by norm_num)
    obtain ⟨hp0, hp1⟩ := hb (dictValuesLen patterns) 3 (by norm_num)
    refine ⟨?_, ?_, ?_, ?_⟩
    · rw [hconf]
      ring
    · rw [hconf]
      linarith
    · rw [hconf]
      linarith
    · intro hsum
      exact absurd hsum h0

/-- A concrete extraction outcome: one IOC and one attack pattern. -/
def iocsW : List (String × List String) := [("ip", ["203.0.113.42"])]

def patternsW : List (String × List String) := [("attack_vectors", ["phishing"])]

/-- A reachable entity dict: the same surface text labelled both ORG and PRODUCT by
the language model; each per-subtype list is deduplicated, exactly as the code's
`list(set(...))` guarantees, but the value still occurs under two subtypes. -/
def entitiesC6 : List (String × List String) :=
  [("org", ["Microsoft"]), ("product", ["Microsoft"])]

theorem calculate_confidence_formula_witness :
    _calculate_confidence iocsW entitiesC6 patternsW =
      0.4 * min 1 ((dictValuesLen iocsW : ℚ) / 5) +
      0.3 * min 1 ((dictValuesLen entitiesC6 : ℚ) / 5) +
      0.3 * min 1 ((dictValuesLen patternsW : ℚ) / 3) ∧
    0 ≤ _calculate_confidence iocsW entitiesC6 patternsW ∧
    _calculate_confidence iocsW entitiesC6 patternsW ≤ 1 ∧
    (dictValuesLen iocsW + dictValuesLen entitiesC6 + dictValuesLen patternsW = 0 →
      _calculate_confidence iocsW entitiesC6 patternsW = 0) :=
  calculate_confidence_formula iocsW entitiesC6 patternsW
    (by decide) (by decide) (by decide)

/-- Claim C6 (counterexample).  An extraction run whose entity dict holds the same
value under two subtypes — per-subtype lists deduplicated, as the code guarantees —
yields confidence 0.12 from the code (the entity count is the per-subtype sum 2),
whereas the claim's union-based formula yields 0.06 (union cardinality 1). -/
theorem confidence_double_counts_cross_subtype_values :
    _calculate_confidence [] entitiesC6 [] = 0.12 ∧
    confidence_claimed [] entitiesC6 [] = 0.06 ∧
    _calculate_confidence [] entitiesC6 [] ≠ confidence_claimed [] entitiesC6 [] := by
  have hc : _calculate_confidence [] entitiesC6 [] = 0.12 := by
    norm_num [_calculate_confidence, entitiesC6, dictValuesLen, pyDictMerge, min_def]
  have hu : unionCount entitiesC6 = 1 := by decide
  have h0 : unionCount ([] : List (String × List String)) = 0 := by decide
  have hcl : confidence_claimed [] entitiesC6 [] = 0.06 := by
    norm_num [confidence_claimed, hu, h0, min_def]
  exact ⟨hc, hcl, by rw [hc, hcl]; norm_num⟩

/-! ### Claim C7 -/

/-- Claim C7 (corrected, amended claim).  When the language model fails to load (and
no model is cached), `extract_from_threat` still returns normally — the inner
`try/except` of the named-entity stage swallows the failure — with an empty
named-entity set; but IOC and attack-pattern extraction proceed, so the result is
*not* in general the zero-confidence empty result, which is produced exactly on
empty threat text. -/
theorem extract_degrades_on_model_failure (findall : String → String → List String)
    (threat_id : Int) (threat_text : String) :
    (extract_from_threat ⟨findall, .fatal⟩ none threat_id threat_text).1.entities = [] ∧
    (extract_from_threat ⟨findall, .fatal⟩ none threat_id "").1 =
      { threat_id := threat_id, entities := [], iocs := [], attack_patterns := [],
        confidence := 0, total_entities := none } := by
  constructor
  · by_cases h : threat_text = ""
    · simp [extract_from_threat, h]
    · simp [extract_from_threat, h, _extract_named_entities, _initialize_nlp]
  · simp [extract_from_threat]

/-- The regex engine's behaviour on `textC7`: the IPv4 pattern finds the public C2
address, every other IOC pattern finds nothing; the spaCy load raises a non-OSError
exception. -/
def envFatal : ExtractEnv :=
  { findall := fun p _ => if p = ip_pattern then ["203.0.113.42"] else []
    load := .fatal }

/-- Threat text holding a single public IPv4 IOC and nothing else. -/
def textC7 : String := "C2 traffic from 203.0.113.42"

/-- Claim C7 (counterexample).  Under a model-load failure, extraction over text
containing one public IP returns an empty entity set but a *non-zero* confidence
(0.08 from the IOC term), so the claimed zero-confidence empty result is not what
the code returns. -/
theorem model_failure_result_not_zero_confidence :
    (extract_from_threat envFatal none 7 textC7).1.entities = [] ∧
    (extract_from_threat envFatal none 7 textC7).1.iocs = [("ip", ["203.0.113.42"])] ∧
    (extract_from_threat envFatal none 7 textC7).1.confidence = 0.08 ∧
    (extract_from_threat envFatal none 7 textC7).1.confidence ≠ 0 := by
  have htext : (textC7 = "") = False := by simp [textC7]
  have hioc : _extract_iocs envFatal.findall textC7 = [("ip", ["203.0.113.42"])] := by
    decide
  have hne : _extract_named_entities envFatal.load none textC7 = ([], none) := rfl
  have hap : _extract_attack_patterns textC7 = [] := by decide
  have hconf : _calculate_confidence [("ip", ["203.0.113.42"])] [] [] = 0.08 := by
    norm_num [_calculate_confidence, dictValuesLen, pyDictMerge, min_def]
  have h3 : (extract_from_threat envFatal none 7 textC7).1.confidence = 0.08 := by
    simp [extract_from_threat, htext, hioc, hne, hap, hconf]
  refine ⟨?_, ?_, h3, ?_⟩
  · simp [extract_from_threat, htext, hne]
  · simp [extract_from_threat, htext, hioc]
  · rw [h3]
    norm_num

/-! ### Claim C9 -/

lemma initialize_nlp_idem (load : SpacyLoad) (nlp0 : Option Nlp) :
    _initialize_nlp load (_initialize_nlp load nlp0) = _initialize_nlp load nlp0 := by
  cases nlp0 <;> cases load <;> rfl

lemma extract_named_entities_snd (load : SpacyLoad) (nlp0 : Option Nlp) (text : String) :
    (_extract_named_entities load nlp0 text).2 = _initialize_nlp load nlp0 := by
  unfold _extract_named_entities
  cases h : _initialize_nlp load nlp0 with
  | none => rfl
  | some nlp => cases hr : nlp.run text <;> simp [hr]

lemma extract_named_entities_stable (load : SpacyLoad) (nlp0 : Option Nlp) (text : String) :
    _extract_named_entities load (_extract_named_entities load nlp0 text).2 text =
      _extract_named_entities load nlp0 text := by
  rw [extract_named_entities_snd]
  show _extract_named_entities load (_initialize_nlp load nlp0) text =
    _extract_named_entities load nlp0 text
  unfold _extract_named_entities
  rw [initialize_nlp_idem]

/-- Claim C9 (confirmed).  Re-running extraction on the same threat text with the same
external environment (regex engine and model loader) — passing along the `self.nlp`
cache the first run left behind — yields an identical `ExtractionResult`: same IOC
dicts, same entity dict, same attack-pattern dict, same confidence, nothing
appended or merged across runs. -/
theorem extraction_idempotent (env : ExtractEnv) (nlp0 : Option Nlp) (threat_id : Int)
    (threat_text : String) :
    (extract_from_threat env (extract_from_threat env nlp0 threat_id threat_text).2
        threat_id threat_text).1 =
      (extract_from_threat env nlp0 threat_id threat_text).1 := by
  by_cases h : threat_text = ""
  · simp [extract_from_threat, h]
  · simp only [extract_from_threat, if_neg h]
    rw [extract_named_entities_stable]

end Aita
